import Mathlib

/-!
# Verification of the Interactive Kaleidoscope renderer

Shallow embedding of the kaleidoscope source (v1.6 component in
`src/unnamed/part_000` / `src/src/Kaleidoscope.jsx` lineage, and the v1.1
component in `src/unnamed/part_001`), together with proofs about the
color utilities, control mappers, animation-state integrator, sample-count
formula, palette operations and the harmonic radial evaluator.

Color utilities are embedded over `ℚ` (the source arithmetic there is exact
rational arithmetic on the inputs we consider), control and animation code
over `ℝ` (it uses `Math.exp`, `Math.pow`, `Math.sin`, `Math.cos`).
-/

/-! ## Color utilities (part_000 lines 14-70) -/

/-- `clamp = (x, a, b) => Math.min(b, Math.max(a, x))` (part_000 line 15), on `ℚ`. -/
def clampQ (x a b : ℚ) : ℚ := min b (max a x)

/-- `clamp` on `ℤ` (used for the `clamp(Math.round(v), 0, 255)` byte clamp). -/
def clampI (x a b : ℤ) : ℤ := min b (max a x)

/-- An RGB triple as returned by `hexToRgb` / consumed by `rgbToHex`. -/
structure Rgb where
  r : ℚ
  g : ℚ
  b : ℚ
deriving DecidableEq, Repr

/-- An HSL triple as returned by `rgbToHsl`. -/
structure Hsl where
  h : ℚ
  s : ℚ
  l : ℚ
deriving DecidableEq, Repr

/-- The character class `[\da-f]` of the hex-color regex with the `i` flag:
a decimal digit, `a`-`f`, or `A`-`F` (codepoints 48-57, 97-102, 65-70). -/
def isHexDig (c : Char) : Bool :=
  (48 ≤ c.toNat && c.toNat ≤ 57) || (97 ≤ c.toNat && c.toNat ≤ 102) ||
    (65 ≤ c.toNat && c.toNat ≤ 70)

/-- Value of one hex digit, as `parseInt(-, 16)` assigns it. -/
def hexDigitVal (c : Char) : ℕ :=
  if 48 ≤ c.toNat ∧ c.toNat ≤ 57 then c.toNat - 48
  else if 97 ≤ c.toNat ∧ c.toNat ≤ 102 then c.toNat - 87
  else if 65 ≤ c.toNat ∧ c.toNat ≤ 70 then c.toNat - 55
  else 0

/-- The optional leading `#` of the regex `^#?...`. -/
def stripHash (cs : List Char) : List Char :=
  match cs with
  | '#' :: rest => rest
  | _ => cs

/-- The anchored body `([\da-f]{2})([\da-f]{2})([\da-f]{2})$` of the regex in
`hexToRgb` (part_000 line 19): exactly six hex digits, parsed pairwise with
`parseInt(m[i], 16)`.  Returns `none` when the string does not match. -/
def parseHex6 (cs : List Char) : Option (ℕ × ℕ × ℕ) :=
  match cs with
  | [c1, c2, c3, c4, c5, c6] =>
    if isHexDig c1 && isHexDig c2 && isHexDig c3 && isHexDig c4 &&
        isHexDig c5 && isHexDig c6 then
      some (16 * hexDigitVal c1 + hexDigitVal c2,
            16 * hexDigitVal c3 + hexDigitVal c4,
            16 * hexDigitVal c5 + hexDigitVal c6)
    else none
  | _ => none

/-- `hexToRgb` (part_000 lines 18-22): parse `#rrggbb` (optional `#`,
case-insensitive); on no match return white `{r: 255, g: 255, b: 255}`. -/
def hexToRgb (hex : String) : Rgb :=
  match parseHex6 (stripHash hex.data) with
  | some (r, g, b) => ⟨r, g, b⟩
  | none => ⟨255, 255, 255⟩

/-- Whether `hex` matches the regex `/^#?([\da-f]{2})([\da-f]{2})([\da-f]{2})$/i`
of `hexToRgb`. -/
def isValidHexColor (hex : String) : Bool :=
  (parseHex6 (stripHash hex.data)).isSome

/-- Lowercase hex digit character, as `Number.prototype.toString(16)` emits. -/
def hexChar (n : ℕ) : Char :=
  if n < 10 then Char.ofNat (48 + n) else Char.ofNat (87 + n)

/-- `v.toString(16).padStart(2, "0")` for `v` in `[0, 255]`. -/
def toHex2 (n : ℕ) : String :=
  String.mk [hexChar (n / 16), hexChar (n % 16)]

/-- `Math.round`: round half toward positive infinity. -/
def jsRound (x : ℚ) : ℤ := ⌊x + 1 / 2⌋

/-- `rgbToHex` (part_000 lines 23-26).  Note the source template literal emits
`to(r)`, then `to(b)`, then `to(g)` — the green and blue channels are written
in swapped order.  The trailing `.replace("#", "#")` is a no-op. -/
def rgbToHex (r g b : ℚ) : String :=
  "#" ++ toHex2 (clampI (jsRound r) 0 255).toNat
      ++ toHex2 (clampI (jsRound b) 0 255).toNat
      ++ toHex2 (clampI (jsRound g) 0 255).toNat

/-- `rgbToHsl` (part_000 lines 27-43). -/
def rgbToHsl (r0 g0 b0 : ℚ) : Hsl :=
  let r := r0 / 255
  let g := g0 / 255
  let b := b0 / 255
  let mx := max r (max g b)
  let mn := min r (min g b)
  let l := (mx + mn) / 2
  if mx = mn then ⟨0, 0, l⟩
  else
    let d := mx - mn
    let s := if l > 1 / 2 then d / (2 - mx - mn) else d / (mx + mn)
    let h :=
      if mx = r then (g - b) / d + (if g < b then 6 else 0)
      else if mx = g then (b - r) / d + 2
      else (r - g) / d + 4
    ⟨h / 6, s, l⟩

/-- `hue2rgb` (part_000 lines 48-54): the two sequential wraps `t += 1` /
`t -= 1` followed by the three-piece linear interpolation. -/
def hue2rgb (p q t0 : ℚ) : ℚ :=
  let t1 := if t0 < 0 then t0 + 1 else t0
  let t := if t1 > 1 then t1 - 1 else t1
  if t < 1 / 6 then p + (q - p) * 6 * t
  else if t < 1 / 2 then q
  else if t < 2 / 3 then p + (q - p) * (2 / 3 - t) * 6
  else p

/-- `hslToRgb` (part_000 lines 44-62); returns channels scaled back to 0-255. -/
def hslToRgb (h s l : ℚ) : Rgb :=
  if s = 0 then ⟨l * 255, l * 255, l * 255⟩
  else
    let q := if l < 1 / 2 then l * (1 + s) else l + s - l * s
    let p := 2 * l - q
    ⟨hue2rgb p q (h + 1 / 3) * 255, hue2rgb p q h * 255,
      hue2rgb p q (h - 1 / 3) * 255⟩

/-- `boostSaturation` (part_000 lines 63-70); the source default for `boost`
is `1.7`, `vibrance = 0.5`. -/
def boostSaturation (hex : String) (boost : ℚ) : String :=
  let c := hexToRgb hex
  let hsl := rgbToHsl c.r c.g c.b
  let vibrance : ℚ := 1 / 2
  let s2 := clampQ (hsl.s * (1 + vibrance * (1 - hsl.s)) * boost) 0 1
  let rgb := hslToRgb hsl.h s2 hsl.l
  rgbToHex rgb.r rgb.g rgb.b

/-! ## Palette add / remove operations (part_000 lines 82-83, 220-221) -/

/-- The initial color list `["#ff0055", "#00d2ff", "#ffd166"]`. -/
def initialColors : List String := ["#ff0055", "#00d2ff", "#ffd166"]

/-- `addColor` (part_000 line 220): append `"#ffffff"` unless already 12 long. -/
def addColor (cs : List String) : List String :=
  if cs.length ≥ 12 then cs else cs ++ ["#ffffff"]

/-- `removeColor` (part_000 line 221): drop the last entry (`slice(0, -1)`)
unless already down to 3. -/
def removeColor (cs : List String) : List String :=
  if cs.length ≤ 3 then cs else cs.dropLast

/-- One user palette operation (a click of `+ Color` or `− Color`). -/
inductive PaletteOp where
  | add : PaletteOp
  | remove : PaletteOp
deriving DecidableEq, Repr

/-- Apply one palette operation. -/
def applyPaletteOp (op : PaletteOp) (cs : List String) : List String :=
  match op with
  | .add => addColor cs
  | .remove => removeColor cs

/-- Apply a finite sequence of palette operations in order. -/
def applyPaletteOps (ops : List PaletteOp) (cs : List String) : List String :=
  ops.foldl (fun acc op => applyPaletteOp op acc) cs

/-! ## Control mappers and numeric helpers (part_000 lines 14-15, 73-74) -/

/-- `TAU = Math.PI * 2` (part_000 line 14). -/
noncomputable def TAU : ℝ := Real.pi * 2

/-- `clamp = (x, a, b) => Math.min(b, Math.max(a, x))` (part_000 line 15), on `ℝ`. -/
noncomputable def clamp (x a b : ℝ) : ℝ := min b (max a x)

/-- `sliderGain` (part_000 line 73):
`(x, k = 2.4) => { x = clamp(x, 0, 1); const d = 1 - Math.exp(-k); return (1 - Math.exp(-k * x)) / d; }`.
The source default steepness `k = 2.4` is passed explicitly at every use here. -/
noncomputable def sliderGain (x k : ℝ) : ℝ :=
  let xc := clamp x 0 1
  (1 - Real.exp (-k * xc)) / (1 - Real.exp (-k))

/-- `sensShape` (part_000 line 74): `0.22 + 0.50 * Math.pow(clamp(s, 0, 1), 1.15)`. -/
noncomputable def sensShape (s : ℝ) : ℝ :=
  0.22 + 0.50 * clamp s 0 1 ^ (1.15 : ℝ)

/-- `Math.sign(x || 0)` on a real control value: `-1`, `0` or `1`. -/
noncomputable def jsSign (x : ℝ) : ℝ :=
  if x < 0 then -1 else if 0 < x then 1 else 0

/-! ## Per-wedge sample count (part_000 lines 155-165) -/

/-- The sample-count computation of the render loop (part_000 lines 157-165):
`segs = clamp(segments|0, 2, 128)`, `theta = TAU / segs`,
`thetaNorm = theta / (TAU / 12)`, `segTaper = pow(clamp(thetaNorm, 0.25, 1), 0.75)`,
`L = max(260, floor((320 + 180 * complexity) * segTaper))`. -/
noncomputable def sampleCount (complexity segments : ℤ) : ℤ :=
  let segs := clampI segments 2 128
  let theta : ℝ := TAU / (segs : ℝ)
  let thetaNorm := theta / (TAU / 12)
  let segTaper := clamp thetaNorm 0.25 1 ^ (0.75 : ℝ)
  max 260 ⌊((320 : ℝ) + 180 * (complexity : ℝ)) * segTaper⌋

/-- The sample-count formula as the spec words it (section 4.3 / claim C4):
`L = max(260, floor((320 + 180*complexity) * taper))` with
`taper = clamp(theta / (2π/12), 0.25, 1)^0.75` and `theta = 2π/segments`. -/
noncomputable def specSampleCount (complexity segments : ℤ) : ℤ :=
  let theta : ℝ := 2 * Real.pi / (segments : ℝ)
  let taper := clamp (theta / (2 * Real.pi / 12)) 0.25 1 ^ (0.75 : ℝ)
  max 260 ⌊((320 : ℝ) + 180 * (complexity : ℝ)) * taper⌋

/-! ## Animation state and the per-frame render loop (part_000 lines 96, 124-152, 203-211) -/

/-- The control knobs read by one frame of the loop (externally owned React
state: `run`, `patternUI`, `rotationUI`, `swirlUI`, `sensitivityUI`). -/
structure Controls where
  run : Bool
  patternUI : ℝ
  rotationUI : ℝ
  swirlUI : ℝ
  sensitivityUI : ℝ

/-- Everything one invocation of `loop(now)` reads from its environment:
`elapsed = (now - last) / 1000`, the current control values, and the measured
render duration written into `S.renderMs`. -/
structure FrameInput where
  elapsed : ℝ
  ctrl : Controls
  renderMs : ℝ

/-- The animation-state record
`{ t:0, rot:0, swirl:0, patV:0.4, rotV:0.12, swlV:0.4, fps:60, renderMs:0 }`
(part_000 line 96). -/
structure AnimState where
  t : ℝ
  rot : ℝ
  swirl : ℝ
  patV : ℝ
  rotV : ℝ
  swlV : ℝ
  fps : ℝ
  renderMs : ℝ

/-- The initial animation state (part_000 line 96). -/
def initState : AnimState :=
  { t := 0, rot := 0, swirl := 0, patV := 0.4, rotV := 0.12, swlV := 0.4,
    fps := 60, renderMs := 0 }

/-- Speed caps `capPat = 1.8, capRot = 0.40, capSwl = 1.6` (part_000 line 124). -/
noncomputable def capPat : ℝ := 1.8

/-- `capRot = 0.40`. -/
noncomputable def capRot : ℝ := 0.40

/-- `capSwl = 1.6`. -/
noncomputable def capSwl : ℝ := 1.6

/-- Truncation toward zero, as the quotient implicit in the JavaScript `%`
remainder operator. -/
noncomputable def rtrunc (x : ℝ) : ℤ := if 0 ≤ x then ⌊x⌋ else ⌈x⌉

/-- The JavaScript remainder `x % y`: `x - y * trunc(x / y)`. -/
noncomputable def jsRem (x y : ℝ) : ℝ := x - y * (rtrunc (x / y) : ℝ)

/-- `((r % TAU) + TAU) % TAU` — the fold applied to the rotation angle. -/
noncomputable def wrapRot (r : ℝ) : ℝ := jsRem (jsRem r TAU + TAU) TAU

/-- `if (S.rot > TAU || S.rot < -TAU) S.rot = ((S.rot % TAU) + TAU) % TAU`
(part_000 line 149). -/
noncomputable def rotGuard (r : ℝ) : ℝ :=
  if r > TAU ∨ r < -TAU then wrapRot r else r

/-- `if (S.t > 1e6 || S.t < -1e6) S.t = 0` (part_000 lines 150-151), applied
to both the pattern time and the swirl phase. -/
noncomputable def driftGuard (x : ℝ) : ℝ :=
  if x > 1e6 ∨ x < -1e6 then 0 else x

/-- `dtRaw = Math.max(0, (now - last) / 1000)` (part_000 line 128). -/
noncomputable def dtRawOf (inp : FrameInput) : ℝ := max 0 inp.elapsed

/-- `dt = Math.min(0.050, dtRaw)` (part_000 line 129). -/
noncomputable def dtOf (inp : FrameInput) : ℝ := min 0.050 (dtRawOf inp)

/-- The `if (run) { ... }` integration block (part_000 lines 133-152):
target velocities, first-order exponential smoothing with `a = 1 - exp(-dt/0.18)`,
velocity-times-dt integration, then the rotation fold and drift guards. -/
noncomputable def integrate (inp : FrameInput) (S : AnimState) : AnimState :=
  let dt := dtOf inp
  let sens := sensShape inp.ctrl.sensitivityUI
  let tgtPat := capPat * sens * sliderGain inp.ctrl.patternUI 2.4
  let tgtRot := capRot * sens * sliderGain |inp.ctrl.rotationUI| 2.4 *
    jsSign inp.ctrl.rotationUI
  let tgtSwl := capSwl * sens * sliderGain inp.ctrl.swirlUI 2.4
  let a := 1 - Real.exp (-dt / 0.18)
  let patV := S.patV + (tgtPat - S.patV) * a
  let rotV := S.rotV + (tgtRot - S.rotV) * a
  let swlV := S.swlV + (tgtSwl - S.swlV) * a
  { S with
    patV := patV, rotV := rotV, swlV := swlV,
    t := driftGuard (S.t + dt * patV),
    rot := rotGuard (S.rot + dt * rotV),
    swirl := driftGuard (S.swirl + dt * swlV) }

/-- One full frame of `loop` as it affects the animation state: the
integration block when `run` is set, then `S.renderMs = performance.now() - t0`
and the FPS exponential moving average
`instFps = dtRaw > 0 ? 1 / dtRaw : 60; S.fps += (instFps - S.fps) * 0.12`
(part_000 lines 127-211). -/
noncomputable def stepFrame (inp : FrameInput) (S : AnimState) : AnimState :=
  let S1 := if inp.ctrl.run then integrate inp S else S
  let instFps := if dtRawOf inp > 0 then 1 / dtRawOf inp else 60
  { S1 with fps := S1.fps + (instFps - S1.fps) * 0.12, renderMs := inp.renderMs }

/-- Run the loop over a finite sequence of frames, in order. -/
noncomputable def runFrames (inps : List FrameInput) (S : AnimState) : AnimState :=
  inps.foldl (fun s i => stepFrame i s) S

/-! ## Harmonic radial evaluators (part_000 lines 182-199, 341-393 and
part_001 lines 187-201) -/

/-- `k1 = 6 + complexity * 0.9` (part_000 line 183, part_001 line 192). -/
noncomputable def k1 (c : ℝ) : ℝ := 6 + c * 0.9

/-- `k2 = 10 + complexity * 1.2`. -/
noncomputable def k2 (c : ℝ) : ℝ := 10 + c * 1.2

/-- `k3 = 14 + complexity * 0.6`. -/
noncomputable def k3 (c : ℝ) : ℝ := 14 + c * 0.6

/-- Cached base phase `p1 = k1 * t` (part_000 line 194). -/
noncomputable def p1 (c t : ℝ) : ℝ := k1 c * t

/-- Cached base phase `p2 = k2 * t` (part_000 line 195). -/
noncomputable def p2 (c t : ℝ) : ℝ := k2 c * t

/-- Cached base phase `p3 = k3 * (t * 1.2)` (part_000 line 196). -/
noncomputable def p3 (c t : ℝ) : ℝ := k3 c * (t * 1.2)

/-- Frame phase `a1 = 1.3 * S.t + 0.15 * Math.sin(S.swirl)` (part_000 line 354). -/
noncomputable def a1 (St swirl : ℝ) : ℝ := 1.3 * St + 0.15 * Real.sin swirl

/-- Frame phase `a2 = -0.7 * S.t + 0.20 * Math.cos(S.swirl * 0.7)` (line 355). -/
noncomputable def a2 (St swirl : ℝ) : ℝ := -0.7 * St + 0.20 * Real.cos (swirl * 0.7)

/-- Frame phase `a3 = 0.9 * S.t + 0.05 * Math.sin(S.swirl * 1.4)` (line 356). -/
noncomputable def a3 (St swirl : ℝ) : ℝ := 0.9 * St + 0.05 * Real.sin (swirl * 1.4)

/-- The pre-clamp radial value `Rnorm` of the v1.6 `drawWedge`
(part_000 lines 371-375): each harmonic is reconstructed from the cached base
phase via `s_i = sinPhi_i * cos(a_i) + cosPhi_i * sin(a_i)` and
`Rnorm = 0.55 + 0.30 * s1 + 0.15 * s2 + 0.10 * s3`. -/
noncomputable def Rnorm16 (c t St swirl : ℝ) : ℝ :=
  let s1 := Real.sin (p1 c t) * Real.cos (a1 St swirl) +
    Real.cos (p1 c t) * Real.sin (a1 St swirl)
  let s2 := Real.sin (p2 c t) * Real.cos (a2 St swirl) +
    Real.cos (p2 c t) * Real.sin (a2 St swirl)
  let s3 := Real.sin (p3 c t) * Real.cos (a3 St swirl) +
    Real.cos (p3 c t) * Real.sin (a3 St swirl)
  0.55 + 0.30 * s1 + 0.15 * s2 + 0.10 * s3

/-- The closed-form radial value `Rnorm` of the v1.1 `drawWedge`
(part_001 lines 196-199):
`0.55 + 0.30*sin(k1*(t + 0.15*sin(swirl)) + 1.3*S.t)
      + 0.15*cos(k2*(t + 0.20*cos(swirl*0.7)) - 0.7*S.t)
      + 0.10*sin(k3*(t*1.2 + 0.05*sin(swirl*1.4)) + 0.9*S.t)`. -/
noncomputable def Rnorm11 (c t St swirl : ℝ) : ℝ :=
  0.55 + 0.30 * Real.sin (k1 c * (t + 0.15 * Real.sin swirl) + 1.3 * St)
       + 0.15 * Real.cos (k2 c * (t + 0.20 * Real.cos (swirl * 0.7)) - 0.7 * St)
       + 0.10 * Real.sin (k3 c * (t * 1.2 + 0.05 * Real.sin (swirl * 1.4)) + 0.9 * St)

/-! Helper lemmas -/

lemma applyPaletteOp_bounds (op : PaletteOp) (cs : List String)
    (h3 : 3 ≤ cs.length) (h12 : cs.length ≤ 12) :
    3 ≤ (applyPaletteOp op cs).length ∧ (applyPaletteOp op cs).length ≤ 12 := by
  cases op
  · simp only [applyPaletteOp, addColor]
    split_ifs with h
    · exact ⟨h3, h12⟩
    · simp only [List.length_append, List.length_cons, List.length_nil]
      omega
  · simp only [applyPaletteOp, removeColor]
    split_ifs with h
    · exact ⟨h3, h12⟩
    · rw [List.length_dropLast]
      omega

lemma applyPaletteOps_bounds (ops : List PaletteOp) :
    ∀ cs : List String, 3 ≤ cs.length → cs.length ≤ 12 →
      3 ≤ (applyPaletteOps ops cs).length ∧ (applyPaletteOps ops cs).length ≤ 12 := by
  induction ops with
  | nil => intro cs h3 h12; exact ⟨h3, h12⟩
  | cons op rest ih =>
    intro cs h3 h12
    have h := applyPaletteOp_bounds op cs h3 h12
    simpa [applyPaletteOps, List.foldl_cons] using ih (applyPaletteOp op cs) h.1 h.2

/-- C8: starting from the initial 3-entry color list, after any finite sequence
of add/remove operations the palette length stays within [3, 12]. -/
theorem palette_length_within_bounds (ops : List PaletteOp) :
    3 ≤ (applyPaletteOps ops initialColors).length ∧
      (applyPaletteOps ops initialColors).length ≤ 12 :=
  applyPaletteOps_bounds ops initialColors (by simp [initialColors]) (by simp [initialColors])

/-- C10: any string that does not match the six-hex-digit color regex (with
optional leading hash) is mapped by `hexToRgb` to white. -/
theorem hexToRgb_invalid_gives_white (s : String) (h : isValidHexColor s = false) :
    hexToRgb s = ⟨255, 255, 255⟩ := by
  rw [isValidHexColor] at h
  rw [hexToRgb]
  rcases hp : parseHex6 (stripHash s.data) with _ | v
  · rfl
  · rw [hp] at h; simp at h

theorem hexToRgb_invalid_gives_white_witness :
    isValidHexColor "blah" = false ∧ hexToRgb "blah" = ⟨255, 255, 255⟩ :=
  ⟨rfl, hexToRgb_invalid_gives_white "blah" rfl⟩

/-- C3 (code bug): the hex/RGB round trip does not return the input triple:
`rgbToHex` writes the green and blue channels in swapped order, so
`hexToRgb (rgbToHex 12 34 56)` is `{r:12, g:56, b:34}`, not `{r:12, g:34, b:56}`. -/
theorem hexToRgb_rgbToHex_swaps_g_b :
    hexToRgb (rgbToHex 12 34 56) = ⟨12, 56, 34⟩ ∧
      hexToRgb (rgbToHex 12 34 56) ≠ ⟨12, 34, 56⟩ := by
  have h1 : jsRound (12 : ℚ) = 12 := by norm_num [jsRound]
  have h2 : jsRound (34 : ℚ) = 34 := by norm_num [jsRound]
  have h3 : jsRound (56 : ℚ) = 56 := by norm_num [jsRound]
  have hhex : rgbToHex 12 34 56 = "#0c3822" := by rw [rgbToHex, h1, h2, h3]; rfl
  have hparse : parseHex6 (stripHash ("#0c3822".data)) = some (12, 56, 34) := by rfl
  have hval : hexToRgb (rgbToHex 12 34 56) = ⟨12, 56, 34⟩ := by
    rw [hhex, hexToRgb, hparse]; norm_num
  refine ⟨hval, ?_⟩
  rw [hval]
  intro hcontra
  have := congrArg Rgb.g hcontra
  norm_num at this

/-! Helper lemmas for the control mappers. -/

lemma clamp01_nonneg (x : ℝ) : 0 ≤ clamp x 0 1 := by
  rw [clamp]
  exact le_min one_pos.le (le_max_left 0 x) |>.trans (le_refl _)

lemma clamp01_le_one (x : ℝ) : clamp x 0 1 ≤ 1 := min_le_left 1 _

lemma clamp_zero_eq : clamp 0 0 1 = 0 := by rw [clamp]; norm_num

lemma clamp_one_eq : clamp 1 0 1 = 1 := by rw [clamp]; norm_num

lemma exp_neg_lt_one {k : ℝ} (hk : 0 < k) : Real.exp (-k) < 1 :=
  Real.exp_lt_one_iff.2 (by linarith)

lemma sliderGain_denom_pos {k : ℝ} (hk : 0 < k) : 0 < 1 - Real.exp (-k) := by
  have := exp_neg_lt_one hk
  linarith

lemma sliderGain_zero (k : ℝ) : sliderGain 0 k = 0 := by
  rw [sliderGain, clamp_zero_eq]
  simp

lemma sliderGain_one {k : ℝ} (hk : 0 < k) : sliderGain 1 k = 1 := by
  rw [sliderGain, clamp_one_eq]
  rw [mul_one]
  exact div_self (sliderGain_denom_pos hk).ne.symm

lemma sliderGain_nonneg {k : ℝ} (x : ℝ) (hk : 0 < k) : 0 ≤ sliderGain x k := by
  rw [sliderGain]
  have hxc : 0 ≤ clamp x 0 1 := clamp01_nonneg x
  have hnum : Real.exp (-k * clamp x 0 1) ≤ 1 := by
    rw [Real.exp_le_one_iff]
    nlinarith
  exact div_nonneg (by linarith) (sliderGain_denom_pos hk).le

lemma sliderGain_le_one {k : ℝ} (x : ℝ) (hk : 0 < k) : sliderGain x k ≤ 1 := by
  rw [sliderGain]
  have hxc1 : clamp x 0 1 ≤ 1 := clamp01_le_one x
  have hmono : Real.exp (-k) ≤ Real.exp (-k * clamp x 0 1) := by
    apply Real.exp_le_exp.2
    nlinarith [clamp01_nonneg x]
  rw [div_le_one (sliderGain_denom_pos hk)]
  linarith

/-- C7: for every steepness `k > 0`, `sliderGain 0 k = 0`, `sliderGain 1 k = 1`,
and for every real input `x` the gain lies in `[0, 1]`. -/
theorem sliderGain_endpoints_and_range (x k : ℝ) (hk : 0 < k) :
    sliderGain 0 k = 0 ∧ sliderGain 1 k = 1 ∧
      0 ≤ sliderGain x k ∧ sliderGain x k ≤ 1 :=
  ⟨sliderGain_zero k, sliderGain_one hk, sliderGain_nonneg x hk, sliderGain_le_one x hk⟩

theorem sliderGain_endpoints_and_range_witness :
    (0 : ℝ) < 2.4 ∧
      (sliderGain 0 2.4 = 0 ∧ sliderGain 1 2.4 = 1 ∧
        0 ≤ sliderGain 0.5 2.4 ∧ sliderGain 0.5 2.4 ≤ 1) :=
  ⟨by norm_num, sliderGain_endpoints_and_range 0.5 2.4 (by norm_num)⟩

/-- C4: for complexity in [1,16] and segment count in [3,64] the per-wedge
sample count equals the spec formula
`max(260, floor((320 + 180*complexity) * taper))` with
`taper = clamp(theta/(2π/12), 0.25, 1)^0.75`, `theta = 2π/segments`;
in particular it is at least 260. -/
theorem sampleCount_matches_spec_and_lower_bound (c s : ℤ)
    (hc1 : 1 ≤ c) (hc2 : c ≤ 16) (hs1 : 3 ≤ s) (hs2 : s ≤ 64) :
    sampleCount c s = specSampleCount c s ∧ 260 ≤ sampleCount c s := by
  have hseg : clampI s 2 128 = s := by
    rw [clampI]
    omega
  have harg : TAU / (s : ℝ) / (TAU / 12) = 2 * Real.pi / (s : ℝ) / (2 * Real.pi / 12) := by
    rw [TAU]
    ring_nf
  constructor
  · rw [sampleCount, specSampleCount, hseg, harg]
  · rw [sampleCount]
    exact le_max_left _ _

theorem sampleCount_matches_spec_and_lower_bound_witness :
    ((1 : ℤ) ≤ 6 ∧ (6 : ℤ) ≤ 16 ∧ (3 : ℤ) ≤ 12 ∧ (12 : ℤ) ≤ 64) ∧
      (sampleCount 6 12 = specSampleCount 6 12 ∧ 260 ≤ sampleCount 6 12) :=
  ⟨by norm_num,
    sampleCount_matches_spec_and_lower_bound 6 12 (by norm_num) (by norm_num)
      (by norm_num) (by norm_num)⟩

/-! Helper lemmas for the saturation pipeline. -/

lemma hexDigitVal_le (c : Char) : hexDigitVal c ≤ 15 := by
  rw [hexDigitVal]
  split_ifs <;> omega

lemma parseHex6_le {cs : List Char} {a b c : ℕ} (h : parseHex6 cs = some (a, b, c)) :
    a ≤ 255 ∧ b ≤ 255 ∧ c ≤ 255 := by
  rcases cs with _ | ⟨c1, _ | ⟨c2, _ | ⟨c3, _ | ⟨c4, _ | ⟨c5, _ | ⟨c6, _ | ⟨c7, rest⟩⟩⟩⟩⟩⟩⟩ <;>
    try simp [parseHex6] at h
  obtain ⟨-, ha, hb, hc⟩ := h
  subst ha hb hc
  have b1 := hexDigitVal_le c1
  have b2 := hexDigitVal_le c2
  have b3 := hexDigitVal_le c3
  have b4 := hexDigitVal_le c4
  have b5 := hexDigitVal_le c5
  have b6 := hexDigitVal_le c6
  omega

lemma hexToRgb_range (s : String) :
    0 ≤ (hexToRgb s).r ∧ (hexToRgb s).r ≤ 255 ∧ 0 ≤ (hexToRgb s).g ∧
      (hexToRgb s).g ≤ 255 ∧ 0 ≤ (hexToRgb s).b ∧ (hexToRgb s).b ≤ 255 := by
  rw [hexToRgb]
  rcases hp : parseHex6 (stripHash s.data) with _ | ⟨a, b, c⟩
  · norm_num
  · obtain ⟨ha, hb, hc⟩ := parseHex6_le hp
    simp only
    refine ⟨Nat.cast_nonneg a, ?_, Nat.cast_nonneg b, ?_, Nat.cast_nonneg c, ?_⟩ <;>
      exact_mod_cast by assumption

lemma rgbToHsl_s_le_one (r g b : ℚ) (hr0 : 0 ≤ r) (hr1 : r ≤ 255) (hg0 : 0 ≤ g)
    (hg1 : g ≤ 255) (hb0 : 0 ≤ b) (hb1 : b ≤ 255) : (rgbToHsl r g b).s ≤ 1 := by
  have hub : max (r / 255) (max (g / 255) (b / 255)) ≤ 1 := by
    apply max_le
    · linarith
    · apply max_le <;> linarith
  have hlb : (0 : ℚ) ≤ min (r / 255) (min (g / 255) (b / 255)) := by
    apply le_min
    · positivity
    · apply le_min <;> positivity
  have hmm : min (r / 255) (min (g / 255) (b / 255)) ≤
      max (r / 255) (max (g / 255) (b / 255)) :=
    le_trans (min_le_left _ _) (le_max_left _ _)
  simp only [rgbToHsl]
  set mx := max (r / 255) (max (g / 255) (b / 255)) with hmxdef
  set mn := min (r / 255) (min (g / 255) (b / 255)) with hmndef
  by_cases heq : mx = mn
  · rw [if_pos heq]
    norm_num
  · rw [if_neg heq]
    dsimp only
    have hlt : mn < mx := hmm.lt_of_ne (fun hc => heq hc.symm)
    have hmn1 : mn ≤ 1 := hmm.trans hub
    split_ifs with hl
    · have hpos : 0 < 2 - mx - mn := by
        have h2 : mx + mn ≤ 2 := by linarith
        rcases lt_or_eq_of_le h2 with h2lt | h2eq
        · linarith
        · exfalso
          have hx1 : mx = 1 := by linarith
          have hn1 : mn = 1 := by linarith
          exact heq (by rw [hx1, hn1])
      rw [div_le_one hpos]
      linarith
    · have hpos : 0 < mx + mn := by linarith
      rw [div_le_one hpos]
      linarith

/-- C9: for an input hex color of full HSL saturation and a boost factor in
[1.0, 2.2], the color produced by `boostSaturation` still has HSL saturation
at most 1 (the clamp keeps the boosted saturation within [0, 1]). -/
theorem boostSaturation_sat_le_one (hex : String) (boost : ℚ)
    (hsat : (rgbToHsl (hexToRgb hex).r (hexToRgb hex).g (hexToRgb hex).b).s = 1)
    (hb1 : 1 ≤ boost) (hb2 : boost ≤ 2.2) :
    (rgbToHsl (hexToRgb (boostSaturation hex boost)).r
      (hexToRgb (boostSaturation hex boost)).g
      (hexToRgb (boostSaturation hex boost)).b).s ≤ 1 := by
  obtain ⟨h1, h2, h3, h4, h5, h6⟩ := hexToRgb_range (boostSaturation hex boost)
  exact rgbToHsl_s_le_one _ _ _ h1 h2 h3 h4 h5 h6

lemma hexToRgb_red : hexToRgb "#ff0000" = ⟨255, 0, 0⟩ := by
  have hp : parseHex6 (stripHash ("#ff0000".data)) = some (255, 0, 0) := by rfl
  rw [hexToRgb, hp]
  norm_num

lemma red_sat_one :
    (rgbToHsl (hexToRgb "#ff0000").r (hexToRgb "#ff0000").g (hexToRgb "#ff0000").b).s = 1 := by
  rw [hexToRgb_red]
  rw [rgbToHsl]
  norm_num

theorem boostSaturation_sat_le_one_witness :
    ((rgbToHsl (hexToRgb "#ff0000").r (hexToRgb "#ff0000").g
        (hexToRgb "#ff0000").b).s = 1 ∧ (1 : ℚ) ≤ 1.7 ∧ (1.7 : ℚ) ≤ 2.2) ∧
      (rgbToHsl (hexToRgb (boostSaturation "#ff0000" 1.7)).r
        (hexToRgb (boostSaturation "#ff0000" 1.7)).g
        (hexToRgb (boostSaturation "#ff0000" 1.7)).b).s ≤ 1 :=
  ⟨⟨red_sat_one, by norm_num, by norm_num⟩,
    boostSaturation_sat_le_one "#ff0000" 1.7 red_sat_one (by norm_num) (by norm_num)⟩

/-! Projection lemmas for the frame step. -/

lemma stepFrame_paused (inp : FrameInput) (S : AnimState) (h : inp.ctrl.run = false) :
    (stepFrame inp S).t = S.t ∧ (stepFrame inp S).rot = S.rot ∧
      (stepFrame inp S).swirl = S.swirl ∧ (stepFrame inp S).patV = S.patV ∧
      (stepFrame inp S).rotV = S.rotV ∧ (stepFrame inp S).swlV = S.swlV := by
  simp [stepFrame, h]

/-- C5: with `run = false` across any number of frames, the animation-state
fields `t`, `rot`, `swirl`, `patV`, `rotV`, `swlV` are left unchanged by the
render loop (only `fps` and `renderMs` may change). -/
theorem paused_frames_leave_state_unchanged (inps : List FrameInput) :
    ∀ S : AnimState, (∀ i ∈ inps, i.ctrl.run = false) →
      (runFrames inps S).t = S.t ∧ (runFrames inps S).rot = S.rot ∧
        (runFrames inps S).swirl = S.swirl ∧ (runFrames inps S).patV = S.patV ∧
        (runFrames inps S).rotV = S.rotV ∧ (runFrames inps S).swlV = S.swlV := by
  induction inps with
  | nil => intro S _; exact ⟨rfl, rfl, rfl, rfl, rfl, rfl⟩
  | cons i rest ih =>
    intro S hall
    have hi : i.ctrl.run = false := hall i (by simp)
    have hrest : ∀ j ∈ rest, j.ctrl.run = false := fun j hj => hall j (by simp [hj])
    have hstep := stepFrame_paused i S hi
    have htail := ih (stepFrame i S) hrest
    have hrun : runFrames (i :: rest) S = runFrames rest (stepFrame i S) := by
      simp [runFrames]
    rw [hrun]
    exact ⟨htail.1.trans hstep.1, htail.2.1.trans hstep.2.1,
      htail.2.2.1.trans hstep.2.2.1, htail.2.2.2.1.trans hstep.2.2.2.1,
      htail.2.2.2.2.1.trans hstep.2.2.2.2.1, htail.2.2.2.2.2.trans hstep.2.2.2.2.2⟩

/-- A concrete paused frame (run unchecked; other knobs at their defaults). -/
noncomputable def pausedInp : FrameInput :=
  ⟨0.016, ⟨false, 0.6, 0.3, 0.5, 0.6⟩, 2⟩

theorem paused_frames_leave_state_unchanged_witness :
    (∀ i ∈ [pausedInp], i.ctrl.run = false) ∧
      ((runFrames [pausedInp] initState).t = initState.t ∧
        (runFrames [pausedInp] initState).rot = initState.rot ∧
        (runFrames [pausedInp] initState).swirl = initState.swirl ∧
        (runFrames [pausedInp] initState).patV = initState.patV ∧
        (runFrames [pausedInp] initState).rotV = initState.rotV ∧
        (runFrames [pausedInp] initState).swlV = initState.swlV) :=
  ⟨fun i hi => by simp at hi; rw [hi]; rfl,
    paused_frames_leave_state_unchanged [pausedInp] initState
      (fun i hi => by simp at hi; rw [hi]; rfl)⟩

/-! Drift-guard lemmas. -/

lemma abs_driftGuard_le (x : ℝ) : |driftGuard x| ≤ 1e6 := by
  rw [driftGuard]
  split_ifs with h
  · norm_num
  · push_neg at h
    rw [abs_le]
    exact ⟨by linarith [h.2], h.1⟩

lemma driftGuard_reset {x : ℝ} (h : 1e6 < |x|) : driftGuard x = 0 := by
  rw [driftGuard, if_pos]
  rcases lt_abs.mp h with h1 | h2
  · exact Or.inl h1
  · exact Or.inr (by linarith)

lemma driftGuard_id {x : ℝ} (h : |x| ≤ 1e6) : driftGuard x = x := by
  rw [abs_le] at h
  rw [driftGuard, if_neg]
  rintro (h1 | h2) <;> linarith [h.1, h.2]

lemma integrate_t (inp : FrameInput) (S : AnimState) :
    (integrate inp S).t = driftGuard (S.t + dtOf inp *
      (S.patV + (capPat * sensShape inp.ctrl.sensitivityUI *
        sliderGain inp.ctrl.patternUI 2.4 - S.patV) *
        (1 - Real.exp (-dtOf inp / 0.18)))) := by
  simp [integrate]

lemma integrate_swirl (inp : FrameInput) (S : AnimState) :
    (integrate inp S).swirl = driftGuard (S.swirl + dtOf inp *
      (S.swlV + (capSwl * sensShape inp.ctrl.sensitivityUI *
        sliderGain inp.ctrl.swirlUI 2.4 - S.swlV) *
        (1 - Real.exp (-dtOf inp / 0.18)))) := by
  simp [integrate]

lemma integrate_rot (inp : FrameInput) (S : AnimState) :
    (integrate inp S).rot = rotGuard (S.rot + dtOf inp *
      (S.rotV + (capRot * sensShape inp.ctrl.sensitivityUI *
        sliderGain |inp.ctrl.rotationUI| 2.4 * jsSign inp.ctrl.rotationUI - S.rotV) *
        (1 - Real.exp (-dtOf inp / 0.18)))) := by
  simp [integrate]

lemma integrate_rotV (inp : FrameInput) (S : AnimState) :
    (integrate inp S).rotV = S.rotV +
      (capRot * sensShape inp.ctrl.sensitivityUI *
        sliderGain |inp.ctrl.rotationUI| 2.4 * jsSign inp.ctrl.rotationUI - S.rotV) *
        (1 - Real.exp (-dtOf inp / 0.18)) := by
  simp [integrate]

lemma stepFrame_t_run (inp : FrameInput) (S : AnimState) (h : inp.ctrl.run = true) :
    (stepFrame inp S).t = (integrate inp S).t := by
  simp [stepFrame, h]

lemma stepFrame_swirl_run (inp : FrameInput) (S : AnimState) (h : inp.ctrl.run = true) :
    (stepFrame inp S).swirl = (integrate inp S).swirl := by
  simp [stepFrame, h]

lemma stepFrame_rot_run (inp : FrameInput) (S : AnimState) (h : inp.ctrl.run = true) :
    (stepFrame inp S).rot = (integrate inp S).rot := by
  simp [stepFrame, h]

lemma stepFrame_rotV_run (inp : FrameInput) (S : AnimState) (h : inp.ctrl.run = true) :
    (stepFrame inp S).rotV = (integrate inp S).rotV := by
  simp [stepFrame, h]

/-- C6: after the integration step of a running frame, both the pattern time
and the swirl phase have magnitude at most 1e6; the guard resets a value to 0
exactly when its magnitude exceeds 1e6 and leaves it unchanged otherwise. -/
theorem running_frame_drift_guard (inp : FrameInput) (S : AnimState)
    (h : inp.ctrl.run = true) :
    |(stepFrame inp S).t| ≤ 1e6 ∧ |(stepFrame inp S).swirl| ≤ 1e6 ∧
      ∀ x : ℝ, (1e6 < |x| → driftGuard x = 0) ∧ (|x| ≤ 1e6 → driftGuard x = x) :=
  ⟨by rw [stepFrame_t_run inp S h, integrate_t]; exact abs_driftGuard_le _,
    by rw [stepFrame_swirl_run inp S h, integrate_swirl]; exact abs_driftGuard_le _,
    fun _ => ⟨fun hx => driftGuard_reset hx, fun hx => driftGuard_id hx⟩⟩

/-- A concrete running frame (knobs at their initial UI values). -/
noncomputable def runInp : FrameInput :=
  ⟨0.016, ⟨true, 0.6, 0.3, 0.5, 0.6⟩, 2⟩

theorem running_frame_drift_guard_witness :
    runInp.ctrl.run = true ∧
      (|(stepFrame runInp initState).t| ≤ 1e6 ∧
        |(stepFrame runInp initState).swirl| ≤ 1e6 ∧
        ∀ x : ℝ, (1e6 < |x| → driftGuard x = 0) ∧ (|x| ≤ 1e6 → driftGuard x = x)) :=
  ⟨rfl, running_frame_drift_guard runInp initState rfl⟩

/-! JavaScript remainder and the rotation fold. -/

lemma jsRem_nonneg_lt {x y : ℝ} (hy : 0 < y) (hx : 0 ≤ x) :
    0 ≤ jsRem x y ∧ jsRem x y < y := by
  have hdiv : 0 ≤ x / y := div_nonneg hx hy.le
  rw [jsRem, rtrunc, if_pos hdiv]
  have hkey : x - y * (⌊x / y⌋ : ℝ) = y * Int.fract (x / y) := by
    rw [Int.fract]
    field_simp
  rw [hkey]
  constructor
  · exact mul_nonneg hy.le (Int.fract_nonneg _)
  · calc y * Int.fract (x / y) < y * 1 :=
        mul_lt_mul_of_pos_left (Int.fract_lt_one _) hy
      _ = y := mul_one y

lemma neg_lt_jsRem (x : ℝ) {y : ℝ} (hy : 0 < y) : -y < jsRem x y := by
  rcases le_or_lt 0 (x / y) with hdiv | hdiv
  · rw [jsRem, rtrunc, if_pos hdiv]
    have hkey : x - y * (⌊x / y⌋ : ℝ) = y * Int.fract (x / y) := by
      rw [Int.fract]
      field_simp
    rw [hkey]
    have := mul_nonneg hy.le (Int.fract_nonneg (x / y))
    linarith
  · rw [jsRem, rtrunc, if_neg (not_le.2 hdiv)]
    have hceil : (⌈x / y⌉ : ℝ) < x / y + 1 := Int.ceil_lt_add_one _
    have hmul : y * (⌈x / y⌉ : ℝ) < y * (x / y + 1) :=
      mul_lt_mul_of_pos_left hceil hy
    have hxy : y * (x / y) = x := mul_div_cancel₀ x hy.ne.symm
    nlinarith

lemma TAU_pos : 0 < TAU := by
  rw [TAU]
  have := Real.pi_pos
  linarith

lemma wrapRot_mem (r : ℝ) : 0 ≤ wrapRot r ∧ wrapRot r < TAU := by
  rw [wrapRot]
  have h1 := neg_lt_jsRem r TAU_pos
  exact jsRem_nonneg_lt TAU_pos (by linarith)

lemma abs_rotGuard_le (r : ℝ) : |rotGuard r| ≤ TAU := by
  rw [rotGuard]
  split_ifs with h
  · obtain ⟨h0, hlt⟩ := wrapRot_mem r
    rw [abs_of_nonneg h0]
    exact hlt.le
  · push_neg at h
    rw [abs_le]
    exact ⟨by linarith [h.2], h.1⟩

lemma rotGuard_id {r : ℝ} (h : |r| ≤ TAU) : rotGuard r = r := by
  rw [abs_le] at h
  rw [rotGuard, if_neg]
  rintro (h1 | h2) <;> linarith [h.1, h.2]

lemma stepFrame_abs_rot_le (inp : FrameInput) (S : AnimState) (h : |S.rot| ≤ TAU) :
    |(stepFrame inp S).rot| ≤ TAU := by
  rcases hrun : inp.ctrl.run with _ | _
  · have := stepFrame_paused inp S hrun
    rw [this.2.1]
    exact h
  · rw [stepFrame_rot_run inp S hrun, integrate_rot]
    exact abs_rotGuard_le _

lemma runFrames_abs_rot_le (inps : List FrameInput) :
    ∀ S : AnimState, |S.rot| ≤ TAU → |(runFrames inps S).rot| ≤ TAU := by
  induction inps with
  | nil => intro S h; exact h
  | cons i rest ih =>
    intro S h
    have hrun : runFrames (i :: rest) S = runFrames rest (stepFrame i S) := by
      simp [runFrames]
    rw [hrun]
    exact ih (stepFrame i S) (stepFrame_abs_rot_le i S h)

/-- C2 (amended): starting from the initial state, after every frame the
rotation angle has magnitude at most 2π (it is folded into [0, 2π) only when
its magnitude exceeds 2π, and can be negative under negative rotation input,
so it need not lie in [0, 2π)). -/
theorem rot_abs_le_two_pi (inps : List FrameInput) :
    |(runFrames inps initState).rot| ≤ 2 * Real.pi := by
  have h := runFrames_abs_rot_le inps initState (by rw [initState]; simp [TAU_pos.le])
  rw [TAU] at h
  linarith [h]

/-! Concrete two-frame run with maximal negative rotation input. -/

/-- Frame input: elapsed 50 ms, running, rotation slider at -1, sensitivity 1. -/
noncomputable def cexInp : FrameInput := ⟨0.05, ⟨true, 0, -1, 0, 1⟩, 0⟩

lemma sensShape_one : sensShape 1 = 0.72 := by
  rw [sensShape, clamp_one_eq, Real.one_rpow]
  norm_num

lemma cex_dt : dtOf cexInp = 0.05 := by
  rw [dtOf, dtRawOf]
  norm_num [cexInp]

lemma cex_tgtRot :
    capRot * sensShape cexInp.ctrl.sensitivityUI *
      sliderGain |cexInp.ctrl.rotationUI| 2.4 * jsSign cexInp.ctrl.rotationUI =
      -0.288 := by
  have h1 : cexInp.ctrl.sensitivityUI = 1 := rfl
  have h2 : cexInp.ctrl.rotationUI = -1 := rfl
  rw [h1, h2, sensShape_one]
  have h3 : |(-1 : ℝ)| = 1 := by norm_num
  rw [h3, sliderGain_one (by norm_num : (0:ℝ) < 2.4)]
  rw [jsSign, if_pos (by norm_num : (-1 : ℝ) < 0), capRot]
  norm_num

lemma TAU_gt_six : (6 : ℝ) < TAU := by
  rw [TAU]
  have := Real.pi_gt_three
  linarith

lemma cex_rotV1 :
    (stepFrame cexInp initState).rotV =
      0.408 * Real.exp (-0.05 / 0.18) - 0.288 := by
  rw [stepFrame_rotV_run _ _ rfl, integrate_rotV, cex_dt, cex_tgtRot]
  simp only [initState]
  ring_nf

lemma cex_rot1 :
    (stepFrame cexInp initState).rot =
      0.05 * (0.408 * Real.exp (-0.05 / 0.18) - 0.288) := by
  rw [stepFrame_rot_run _ _ rfl, integrate_rot, cex_dt, cex_tgtRot]
  simp only [initState]
  have harg : (0 : ℝ) + 0.05 * (0.12 + (-0.288 - 0.12) *
      (1 - Real.exp (-0.05 / 0.18))) =
      0.05 * (0.408 * Real.exp (-0.05 / 0.18) - 0.288) := by ring
  rw [harg]
  apply rotGuard_id
  have hE0 : (0 : ℝ) < Real.exp (-0.05 / 0.18) := Real.exp_pos _
  have hE1 : Real.exp (-0.05 / 0.18) < 1 := Real.exp_lt_one_iff.2 (by norm_num)
  have h6 := TAU_gt_six
  rw [abs_le]
  constructor <;> nlinarith

/-- C2 (counterexample): two 50 ms frames with the rotation slider at -1 and
sensitivity 1 drive the rotation angle strictly below 0 — the folded-guard
only fires beyond magnitude 2π, so `S.rot` leaves `[0, 2π)`. -/
theorem rot_leaves_zero_two_pi_interval :
    (runFrames [cexInp, cexInp] initState).rot < 0 := by
  have hlist : runFrames [cexInp, cexInp] initState =
      stepFrame cexInp (stepFrame cexInp initState) := by
    simp [runFrames]
  rw [hlist, stepFrame_rot_run _ _ rfl, integrate_rot, cex_dt, cex_tgtRot,
    cex_rot1, cex_rotV1]
  have hE0 : (0 : ℝ) < Real.exp (-0.05 / 0.18) := Real.exp_pos _
  have hE1 : Real.exp (-0.05 / 0.18) < 1 := Real.exp_lt_one_iff.2 (by norm_num)
  have hEu : Real.exp (-0.05 / 0.18) ≤ 18 / 23 := by
    have h1 : (23 : ℝ) / 18 ≤ Real.exp (0.05 / 0.18) := by
      have h := Real.add_one_le_exp ((0.05 : ℝ) / 0.18)
      have h2 : (0.05 : ℝ) / 0.18 + 1 = 23 / 18 := by norm_num
      linarith [h2 ▸ h]
    have h2 : Real.exp (-0.05 / 0.18) = (Real.exp (0.05 / 0.18))⁻¹ := by
      rw [← Real.exp_neg]
      norm_num
    rw [h2]
    calc (Real.exp (0.05 / 0.18))⁻¹ ≤ ((23 : ℝ) / 18)⁻¹ :=
          inv_anti₀ (by norm_num) h1
      _ = 18 / 23 := by norm_num
  have harg : 0.05 * (0.408 * Real.exp (-0.05 / 0.18) - 0.288) + 0.05 *
      ((0.408 * Real.exp (-0.05 / 0.18) - 0.288) +
        (-0.288 - (0.408 * Real.exp (-0.05 / 0.18) - 0.288)) *
          (1 - Real.exp (-0.05 / 0.18))) =
      0.0204 * Real.exp (-0.05 / 0.18) ^ 2 +
        0.0204 * Real.exp (-0.05 / 0.18) - 0.0288 := by ring
  rw [harg]
  have hguard : rotGuard (0.0204 * Real.exp (-0.05 / 0.18) ^ 2 +
      0.0204 * Real.exp (-0.05 / 0.18) - 0.0288) =
      0.0204 * Real.exp (-0.05 / 0.18) ^ 2 +
        0.0204 * Real.exp (-0.05 / 0.18) - 0.0288 := by
    apply rotGuard_id
    have h6 := TAU_gt_six
    rw [abs_le]
    constructor <;> nlinarith
  rw [hguard]
  nlinarith [mul_le_mul_of_nonneg_left hEu hE0.le]

/-! Scenario evaluation of the two radial evaluators at
complexity 6, sample t = 0.5, pattern time 0, swirl 0. -/

lemma Rnorm16_at_scenario :
    Rnorm16 6 0.5 0 0 = 0.55 + 0.30 * Real.sin 5.7 + 0.15 * Real.sin 8.8 +
      0.10 * Real.sin 10.56 := by
  have ha1 : a1 0 0 = 0 := by rw [a1]; norm_num
  have ha2 : a2 0 0 = 0.2 := by rw [a2]; norm_num
  have ha3 : a3 0 0 = 0 := by rw [a3]; norm_num
  have hp1 : p1 6 0.5 = 5.7 := by rw [p1, k1]; norm_num
  have hp2 : p2 6 0.5 = 8.6 := by rw [p2, k2]; norm_num
  have hp3 : p3 6 0.5 = 10.56 := by rw [p3, k3]; norm_num
  simp only [Rnorm16]
  rw [ha1, ha2, ha3, hp1, hp2, hp3, Real.sin_zero, Real.cos_zero]
  rw [← Real.sin_add]
  norm_num

lemma Rnorm11_at_scenario :
    Rnorm11 6 0.5 0 0 = 0.55 + 0.30 * Real.sin 5.7 + 0.15 * Real.cos 12.04 +
      0.10 * Real.sin 10.56 := by
  have h1 : k1 6 * ((0.5 : ℝ) + 0.15 * Real.sin 0) + 1.3 * 0 = 5.7 := by
    rw [k1]; norm_num
  have h2 : k2 6 * ((0.5 : ℝ) + 0.20 * Real.cos ((0 : ℝ) * 0.7)) - 0.7 * 0 = 12.04 := by
    rw [k2]; norm_num
  have h3 : k3 6 * ((0.5 : ℝ) * 1.2 + 0.05 * Real.sin ((0 : ℝ) * 1.4)) + 0.9 * 0 = 10.56 := by
    rw [k3]; norm_num
  rw [Rnorm11, h1, h2, h3]

/-! Rigorous numeric bounds: sin 8.8 is small, cos 12.04 is large. -/

lemma sin_small_interval {x : ℝ} (hx1 : (0.6247 : ℝ) < x) (hx2 : x < (0.6248 : ℝ)) :
    Real.sin x ≤ 0.593 := by
  have habs : |x| ≤ 1 := by rw [abs_le]; constructor <;> nlinarith
  have hb := Real.sin_bound habs
  rw [abs_le] at hb
  have hxa : |x| = x := abs_of_pos (by nlinarith)
  rw [hxa] at hb
  have hx3 : (0.6247 : ℝ) ^ 3 < x ^ 3 := by
    apply pow_lt_pow_left₀ hx1 (by norm_num) (by norm_num)
  have hx4 : x ^ 4 < (0.6248 : ℝ) ^ 4 := by
    apply pow_lt_pow_left₀ hx2 (by nlinarith) (by norm_num)
  nlinarith [hb.2]

lemma cos_small_interval {y : ℝ} (hy1 : (-0.5264 : ℝ) < y) (hy2 : y < (-0.5263 : ℝ)) :
    (0.857 : ℝ) ≤ Real.cos y := by
  have habs : |y| ≤ 1 := by rw [abs_le]; constructor <;> nlinarith
  have hb := Real.cos_bound habs
  rw [abs_le] at hb
  have hya : |y| = -y := abs_of_neg (by nlinarith)
  rw [hya] at hb
  have hy2sq : y ^ 2 < (0.5264 : ℝ) ^ 2 := by nlinarith
  have hy4 : (-y) ^ 4 < (0.5264 : ℝ) ^ 4 := by
    apply pow_lt_pow_left₀ (by nlinarith) (by nlinarith) (by norm_num)
  nlinarith [hb.1]

lemma sin_88_le : Real.sin 8.8 ≤ 0.593 := by
  have hπl : (3.141592 : ℝ) < Real.pi := Real.pi_gt_d6
  have hπu : Real.pi < 3.141593 := Real.pi_lt_d6
  have heq : Real.sin (8.8 : ℝ) = Real.sin (3 * Real.pi - 8.8) := by
    rw [show (3 * Real.pi - 8.8 : ℝ) = Real.pi - (8.8 - 2 * Real.pi) by ring,
      Real.sin_pi_sub, Real.sin_sub_two_pi]
  rw [heq]
  exact sin_small_interval (by nlinarith) (by nlinarith)

lemma cos_1204_ge : (0.857 : ℝ) ≤ Real.cos 12.04 := by
  have hπl : (3.141592 : ℝ) < Real.pi := Real.pi_gt_d6
  have hπu : Real.pi < 3.141593 := Real.pi_lt_d6
  have heq : Real.cos (12.04 - 2 * Real.pi - 2 * Real.pi) = Real.cos (12.04 : ℝ) := by
    rw [Real.cos_sub_two_pi, Real.cos_sub_two_pi]
  rw [← heq]
  exact cos_small_interval (by nlinarith) (by nlinarith)

/-- C1 (counterexample): at complexity 6, segments 12, pattern time 0, swirl 0,
sample t = 0.5, the v1.6 angle-addition radial value differs from the v1.1
closed-form harmonic sum (the second harmonic becomes `0.15*sin(8.8)` in v1.6
but is `0.15*cos(12.04)` in the closed form). -/
theorem optimized_radial_differs_from_closed_form :
    Rnorm16 6 0.5 0 0 ≠ Rnorm11 6 0.5 0 0 := by
  rw [Rnorm16_at_scenario, Rnorm11_at_scenario]
  intro h
  have hsc : Real.sin 8.8 = Real.cos 12.04 := by linarith
  linarith [sin_88_le, cos_1204_ge]

/-- C1 (amended): the v1.6 evaluator applies the sine angle-addition identity
to all three cached harmonics, so its radial value is
`0.55 + 0.30*sin(p1+a1) + 0.15*sin(p2+a2) + 0.10*sin(p3+a3)`; at the scenario
(complexity 6, t = 0.5, pattern time 0, swirl 0) this is
`0.55 + 0.30*sin(5.7) + 0.15*sin(8.8) + 0.10*sin(10.56)` — the first and third
terms match the v1.1 closed form there, but the second is a sine with the
swirl offset not scaled by k2, not the closed-form cosine term. -/
theorem optimized_radial_is_sine_angle_addition :
    (∀ c t St sw : ℝ, Rnorm16 c t St sw =
      0.55 + 0.30 * Real.sin (p1 c t + a1 St sw) +
        0.15 * Real.sin (p2 c t + a2 St sw) +
        0.10 * Real.sin (p3 c t + a3 St sw)) ∧
      Rnorm16 6 0.5 0 0 = 0.55 + 0.30 * Real.sin 5.7 + 0.15 * Real.sin 8.8 +
        0.10 * Real.sin 10.56 :=
  ⟨by intro c t St sw; simp only [Rnorm16, Real.sin_add],
    Rnorm16_at_scenario⟩
